import Mathlib

/-!
# Verification of the avito-monitor core

Shallow embedding of the repository's core code:

* `src/config.py` — configuration constants;
* `src/avito_api.py` — the resilient request executor `AvitoAPI._make_request`
  together with session/token management (`get_session`, `_get_headers`,
  `refresh_token`) and the search wrapper `search_items`;
* `src/bot.py` — the chat-message handler `AvitoBot.handle_message`
  (remove-by-index, pipe search, add-by-id branches, in source order) and the
  polling loop `AvitoBot.check_prices`.

Network I/O is modelled by explicit environments: a transport environment maps
each attempt to its outcome, and item-detail fetches are functions from item id
to a fetched result (with an explicit error case for the raised-and-caught
exception paths). Prices are modelled as rationals; the division in the poll
loop is modelled as fallible, mirroring Python's `ZeroDivisionError`.
-/

namespace AvitoMonitor

/-! ## Configuration (src/config.py) -/

/-- Constant `MAX_RETRIES = 3` (config.py line 21). -/
def MAX_RETRIES : Nat := 3

/-- Constant `RETRY_DELAY = 5` seconds (config.py line 22). -/
def RETRY_DELAY : Nat := 5

/-- Constant `MAX_ITEMS_PER_USER = 10` (config.py line 26). -/
def MAX_ITEMS_PER_USER : Nat := 10

/-- Constant `PRICE_CHANGE_THRESHOLD = 5` percent (config.py line 27), used in the
rational comparison `abs(price_change) >= PRICE_CHANGE_THRESHOLD`. -/
def PRICE_CHANGE_THRESHOLD : ℚ := 5

/-! ## HTTP transport and token state (src/avito_api.py)

`aiohttp.ClientSession` is modelled by the part of it the executor observes:
the headers it was created with (here, the `Authorization` header) and its
`closed` flag.  `token_expires_at` is set by `refresh_token` but never read
anywhere in the repository, so it is not modelled. -/

/-- The `Authorization` header value computed by `_get_headers`
(avito_api.py lines 37–45): present iff `self.access_token` is truthy
(non-`None`, non-empty). -/
def getHeaders (access_token : Option String) : Option String :=
  match access_token with
  | none => none
  | some t => if t = "" then none else some ("Bearer " ++ t)

/-- An `aiohttp.ClientSession`: headers are fixed at creation time. -/
structure Session where
  authorization : Option String
  closed : Bool
deriving DecidableEq, Repr

/-- Mutable state of an `AvitoAPI` instance during one logical request:
`self.access_token`, `self._session`, and how many times `refresh_token`
has been called (to index the auth environment). -/
structure ApiState where
  access_token : Option String
  session : Option Session
  refreshCount : Nat
deriving DecidableEq, Repr

/-- Method `get_session` (avito_api.py lines 28–35): reuse `self._session` unless it
is `None` or closed, in which case create a fresh session whose headers are
computed from the *current* `access_token`.  Returns the session used and the
updated state. -/
def getSession (st : ApiState) : Session × ApiState :=
  match st.session with
  | some s =>
    if s.closed then
      let s' : Session := ⟨getHeaders st.access_token, false⟩
      (s', { st with session := some s' })
    else (s, st)
  | none =>
    let s' : Session := ⟨getHeaders st.access_token, false⟩
    (s', { st with session := some s' })

/-- Outcome of one transport attempt inside `session.request`. -/
inductive TransportOutcome where
  /-- An `aiohttp.ClientError` raised (connection error, timeout). -/
  | clientError : TransportOutcome
  /-- An HTTP response with a status code and a body. -/
  | response (status : Nat) (body : String) : TransportOutcome
deriving DecidableEq, Repr

/-- The network environment for one logical request: the transport outcome of
the attempt made at each `retry_count`, and the auth endpoint's behaviour
(status and granted token) for each successive `refresh_token` call. -/
structure Env where
  responses : Nat → TransportOutcome
  authStatus : Nat → Nat
  newTokens : Nat → String

/-- Errors a request chain can raise. -/
inductive ReqError where
  /-- avito_api.py line 57: raised when `retry_count >= MAX_RETRIES`; the
  message names the endpoint. -/
  | retryExhausted (endpoint : String) : ReqError
  /-- avito_api.py line 77: `API error: {error_data}` on a 4xx response. -/
  | apiError (body : String) : ReqError
  /-- avito_api.py line 101: `Failed to refresh token`. -/
  | authError : ReqError
deriving DecidableEq, Repr

/-- Observable events of a request chain, in order. -/
inductive Event where
  /-- One `session.request` call; records the `Authorization` header sent. -/
  | attempt (authorization : Option String) : Event
  /-- One successful `refresh_token` call. -/
  | refresh : Event
  /-- One `asyncio.sleep` of the given number of seconds. -/
  | sleep (seconds : Nat) : Event
deriving DecidableEq, Repr

/-- Method `refresh_token` (avito_api.py lines 86–101): client-credentials exchange on
a separate session; on status 200 store the new token, otherwise raise. -/
def refreshToken (env : Env) (st : ApiState) : Except ReqError ApiState :=
  let n := st.refreshCount
  if env.authStatus n = 200 then
    .ok { st with access_token := some (env.newTokens n), refreshCount := n + 1 }
  else
    .error .authError

/-- Method `_make_request` (avito_api.py lines 47–84).  Returns the result
(body on success, raised error otherwise), the final state, and the event
trace.  Branches in source order: the `retry_count >= MAX_RETRIES` guard,
then per attempt: 401 → refresh and recurse; ≥500 → sleep `RETRY_DELAY` and
recurse; ≥400 → raise `APIError` with the body; otherwise return the body;
an `aiohttp.ClientError` → sleep `RETRY_DELAY` and recurse. -/
def makeRequest (env : Env) (endpoint : String) (st : ApiState)
    (retry_count : Nat) : Except ReqError String × ApiState × List Event :=
  if MAX_RETRIES ≤ retry_count then
    (.error (.retryExhausted endpoint), st, [])
  else
    let p := getSession st
    let ev0 : Event := .attempt p.1.authorization
    match env.responses retry_count with
    | .clientError =>
      let r := makeRequest env endpoint p.2 (retry_count + 1)
      (r.1, r.2.1, ev0 :: .sleep RETRY_DELAY :: r.2.2)
    | .response status body =>
      if status = 401 then
        match refreshToken env p.2 with
        | .ok st' =>
          let r := makeRequest env endpoint st' (retry_count + 1)
          (r.1, r.2.1, ev0 :: .refresh :: r.2.2)
        | .error e => (.error e, p.2, [ev0])
      else if 500 ≤ status then
        let r := makeRequest env endpoint p.2 (retry_count + 1)
        (r.1, r.2.1, ev0 :: .sleep RETRY_DELAY :: r.2.2)
      else if 400 ≤ status then
        (.error (.apiError body), p.2, [ev0])
      else
        (.ok body, p.2, [ev0])
termination_by MAX_RETRIES - retry_count
decreasing_by all_goals omega

/-- Whether an event is a transport attempt. -/
def Event.isAttempt : Event → Bool
  | .attempt _ => true
  | _ => false

/-- Number of transport attempts in a trace. -/
def countAttempts (tr : List Event) : Nat :=
  (tr.filter Event.isAttempt).length

theorem countAttempts_nil : countAttempts [] = 0 := rfl

theorem countAttempts_cons_attempt (a : Option String) (t : List Event) :
    countAttempts (.attempt a :: t) = countAttempts t + 1 := by
  simp [countAttempts, Event.isAttempt]

theorem countAttempts_cons_refresh (t : List Event) :
    countAttempts (.refresh :: t) = countAttempts t := by
  simp [countAttempts, Event.isAttempt]

theorem countAttempts_cons_sleep (n : Nat) (t : List Event) :
    countAttempts (.sleep n :: t) = countAttempts t := by
  simp [countAttempts, Event.isAttempt]

/-- The attempt count of any request chain started at `retry_count` is bounded
by `MAX_RETRIES - retry_count`. -/
theorem countAttempts_makeRequest_le (env : Env) (ep : String)
    (st : ApiState) (r : Nat) :
    countAttempts (makeRequest env ep st r).2.2 ≤ MAX_RETRIES - r := by
  refine makeRequest.induct env ep
    (fun st r => countAttempts (makeRequest env ep st r).2.2 ≤ MAX_RETRIES - r)
    ?_ ?_ ?_ ?_ ?_ ?_ ?_ st r
  · intro st r h
    unfold makeRequest
    simp [h, countAttempts_nil]
  · intro st r h p hres ih
    have hp : p = getSession st := rfl
    rw [hp] at ih
    unfold makeRequest
    rw [if_neg h]
    simp only [hres, countAttempts_cons_attempt, countAttempts_cons_sleep]
    omega
  · intro st r h p a st' href hres ih
    have hp : p = getSession st := rfl
    rw [hp] at href
    unfold makeRequest
    rw [if_neg h]
    simp [hres, href, countAttempts_cons_attempt, countAttempts_cons_refresh]
    omega
  · intro st r h p a e href hres
    have hp : p = getSession st := rfl
    rw [hp] at href
    unfold makeRequest
    rw [if_neg h]
    simp [hres, href, countAttempts_cons_attempt, countAttempts_nil]
    omega
  · intro st r h p a b hres hne h5 ih
    have hp : p = getSession st := rfl
    rw [hp] at ih
    unfold makeRequest
    rw [if_neg h]
    simp [hres, if_neg hne, if_pos h5, countAttempts_cons_attempt,
      countAttempts_cons_sleep]
    omega
  · intro st r h a b hres hne h5 h4
    unfold makeRequest
    rw [if_neg h]
    simp only [hres, if_neg hne, if_neg h5, if_pos h4,
      countAttempts_cons_attempt, countAttempts_nil]
    omega
  · intro st r h a b hres hne h5 h4
    unfold makeRequest
    rw [if_neg h]
    simp only [hres, if_neg hne, if_neg h5, if_neg h4,
      countAttempts_cons_attempt, countAttempts_nil]
    omega

/-- **C1.** Every retry chain of `_make_request` makes at most `MAX_RETRIES`
transport attempts, whatever the transport and auth endpoint do; and a chain
whose `retry_count` has reached `MAX_RETRIES` raises the retry-exhausted error
naming the endpoint at once, regardless of the environment, touching neither
the state nor the network. -/
theorem make_request_retries_bounded (env : Env) (ep : String) (st : ApiState) :
    countAttempts (makeRequest env ep st 0).2.2 ≤ MAX_RETRIES ∧
    makeRequest env ep st MAX_RETRIES = (.error (.retryExhausted ep), st, []) := by
  constructor
  · simpa using countAttempts_makeRequest_le env ep st 0
  · unfold makeRequest
    simp

/-! ### The 401 / refresh scenario

A concrete environment in which the first attempt receives 401 and the second
receives 200, the auth endpoint succeeding and granting the token `"new"`. -/

/-- Environment: attempt 0 gets 401, later attempts get 200; every refresh
succeeds and grants `"new"`. -/
def env401 : Env where
  responses := fun r =>
    if r = 0 then .response 401 "unauthorized" else .response 200 "ok"
  authStatus := fun _ => 200
  newTokens := fun _ => "new"

/-- Initial client state: access token `"old"`, no session yet. -/
def stOld : ApiState := ⟨some "old", none, 0⟩

/-- **C2 (counter-scenario).** On a 401, `_make_request` calls `refresh_token`
exactly once and retries — but the retry reuses `self._session`, whose
`Authorization` header was fixed when the session was created, so the second
attempt sends `Bearer old` even though the refreshed token `"new"` is already
stored in `self.access_token`.  The final state and trace below exhibit it:
one `refresh` event, token `"new"` in the state, yet both attempts carry
`Bearer old`. -/
theorem make_request_401_resends_stale_token :
    makeRequest env401 "/items/1" stOld 0 =
      (.ok "ok",
       ⟨some "new", some ⟨some "Bearer old", false⟩, 1⟩,
       [.attempt (some "Bearer old"), .refresh,
        .attempt (some "Bearer old")]) ∧
    getHeaders (some "new") = some "Bearer new" := by
  constructor
  · unfold makeRequest
    simp [env401, stOld, getSession, getHeaders, refreshToken, MAX_RETRIES]
    unfold makeRequest
    simp [env401, getSession, MAX_RETRIES]
  · rfl

/-- Any request chain below the retry cap opens with the transport attempt of
the (possibly fresh) session obtained from `get_session`. -/
theorem makeRequest_trace_head (env : Env) (ep : String) (st : ApiState)
    (r : Nat) (h : r < MAX_RETRIES) :
    (makeRequest env ep st r).2.2.head? =
      some (.attempt (getSession st).1.authorization) := by
  unfold makeRequest
  rw [if_neg (by omega)]
  cases henv : env.responses r with
  | clientError => simp [henv]
  | response s b =>
    by_cases h401 : s = 401
    · subst h401
      cases href : refreshToken env (getSession st).2 with
      | ok st' => simp [henv, href]
      | error e => simp [henv, href]
    · by_cases h5 : 500 ≤ s
      · simp [henv, h401, h5]
      · by_cases h4 : 400 ≤ s
        · simp [henv, h401, h5, h4]
        · simp [henv, h401, h5, h4]

/-- **C6.** Below the retry cap: a response with status ≥ 500 makes the chain
sleep `RETRY_DELAY` right after the attempt and continue with the next
attempt (whose opening event, while attempts remain, is the next transport
attempt); a response with status in 400–499 other than 401 makes the chain
fail at once with `APIError` carrying the response body — its whole trace is
the single attempt, with no sleep and no retry. -/
theorem make_request_5xx_sleeps_4xx_fails_fast (env : Env) (ep : String)
    (st : ApiState) (r s : Nat) (b : String) (hr : r < MAX_RETRIES)
    (hres : env.responses r = .response s b) :
    (500 ≤ s →
      makeRequest env ep st r =
        ((makeRequest env ep (getSession st).2 (r + 1)).1,
         (makeRequest env ep (getSession st).2 (r + 1)).2.1,
         .attempt (getSession st).1.authorization ::
           .sleep RETRY_DELAY ::
             (makeRequest env ep (getSession st).2 (r + 1)).2.2) ∧
      (r + 1 < MAX_RETRIES →
        (makeRequest env ep (getSession st).2 (r + 1)).2.2.head? =
          some (.attempt (getSession (getSession st).2).1.authorization))) ∧
    (400 ≤ s → s < 500 → s ≠ 401 →
      makeRequest env ep st r =
        (.error (.apiError b), (getSession st).2,
         [.attempt (getSession st).1.authorization])) := by
  constructor
  · intro h5
    refine ⟨?_, fun h' => makeRequest_trace_head env ep (getSession st).2 (r + 1) h'⟩
    conv_lhs => unfold makeRequest
    rw [if_neg (by omega)]
    have h401 : s ≠ 401 := by omega
    simp [hres, h401, h5]
  · intro h4 h4' h401
    conv_lhs => unfold makeRequest
    rw [if_neg (by omega)]
    have h5 : ¬ 500 ≤ s := by omega
    simp [hres, h401, h5, h4]

/-- Environment: attempt 0 gets 503, later attempts get 404. -/
def env503 : Env where
  responses := fun r =>
    if r = 0 then .response 503 "oops" else .response 404 "nf"
  authStatus := fun _ => 200
  newTokens := fun _ => "new"

/-- Initial client state with no token and no session. -/
def stAnon : ApiState := ⟨none, none, 0⟩

/-- Witness for `make_request_5xx_sleeps_4xx_fails_fast`: under `env503`
(503 then 404, starting with no token and no session) the full chain is
attempt, sleep 5 s, attempt, and then the immediate `APIError` of the 404,
exactly as the theorem instantiated at 503 and at 404 dictates. -/
theorem make_request_5xx_4xx_witness :
    makeRequest env503 "/items" stAnon 0 =
      (.error (.apiError "nf"), ⟨none, some ⟨none, false⟩, 0⟩,
       [.attempt none, .sleep RETRY_DELAY, .attempt none]) := by
  have h503 :=
    (make_request_5xx_sleeps_4xx_fails_fast env503 "/items" stAnon 0 503 "oops"
      (by decide) rfl).1 (by decide)
  have h404 :=
    (make_request_5xx_sleeps_4xx_fails_fast env503 "/items"
      (getSession stAnon).2 1 404 "nf" (by decide) rfl).2
      (by decide) (by decide) (by decide)
  rw [h503.1, h404]
  rfl

/-! ## `search_items` (avito_api.py lines 103–132)

The query parameters are modelled as an association list built in source
order.  Each optional criteria field is appended only when truthy in Python's
sense (`if category_id:` etc.): a present, non-zero / non-empty value. -/

/-- A query-parameter value: an integer or a string. -/
inductive PVal where
  | num (n : Int)
  | str (s : String)
deriving DecidableEq, Repr

/-- Step `if v: params[key] = v` for an `Optional[int]` field. -/
def appendIfTruthyInt (params : List (String × PVal)) (key : String)
    (v : Option Int) : List (String × PVal) :=
  match v with
  | none => params
  | some n => if n = 0 then params else params ++ [(key, .num n)]

/-- Step `if v: params[key] = v` for an `Optional[str]` field. -/
def appendIfTruthyStr (params : List (String × PVal)) (key : String)
    (v : Option String) : List (String × PVal) :=
  match v with
  | none => params
  | some s => if s = "" then params else params ++ [(key, .str s)]

/-- Method `search_items`: builds `params` with `page`, `per_page`, `sort_by`, then
conditionally `category_id`, `location_id`, `query`, `price_from`,
`price_to` in source order, and issues `GET /items` with them.  Default
arguments in the source: `sort_by="date"`, `page=1`, `per_page=50`. -/
def searchItemsRequest (category_id location_id : Option Int)
    (search_query : Option String) (price_from price_to : Option Int)
    (sort_by : String) (page per_page : Int) :
    String × String × List (String × PVal) :=
  let params := [("page", PVal.num page), ("per_page", PVal.num per_page),
                 ("sort_by", PVal.str sort_by)]
  let params := appendIfTruthyInt params "category_id" category_id
  let params := appendIfTruthyInt params "location_id" location_id
  let params := appendIfTruthyStr params "query" search_query
  let params := appendIfTruthyInt params "price_from" price_from
  let params := appendIfTruthyInt params "price_to" price_to
  ("GET", "/items", params)

theorem keys_appendIfTruthyInt (params : List (String × PVal)) (key : String)
    (v : Option Int) :
    (appendIfTruthyInt params key v).map Prod.fst = params.map Prod.fst ∨
    (appendIfTruthyInt params key v).map Prod.fst =
      params.map Prod.fst ++ [key] := by
  cases v with
  | none => left; rfl
  | some n =>
    by_cases hn : n = 0
    · left; simp [appendIfTruthyInt, hn]
    · right; simp [appendIfTruthyInt, hn]

theorem keys_appendIfTruthyStr (params : List (String × PVal)) (key : String)
    (v : Option String) :
    (appendIfTruthyStr params key v).map Prod.fst = params.map Prod.fst ∨
    (appendIfTruthyStr params key v).map Prod.fst =
      params.map Prod.fst ++ [key] := by
  cases v with
  | none => left; rfl
  | some s =>
    by_cases hs : s = ""
    · left; simp [appendIfTruthyStr, hs]
    · right; simp [appendIfTruthyStr, hs]

theorem not_mem_keys_appendIfTruthyInt {k : String}
    {params : List (String × PVal)} {key : String} {v : Option Int}
    (h : k ∉ params.map Prod.fst) (hk : k ≠ key) :
    k ∉ (appendIfTruthyInt params key v).map Prod.fst := by
  rcases keys_appendIfTruthyInt params key v with he | he <;> rw [he] <;>
    simp [h, hk]

theorem not_mem_keys_appendIfTruthyStr {k : String}
    {params : List (String × PVal)} {key : String} {v : Option String}
    (h : k ∉ params.map Prod.fst) (hk : k ≠ key) :
    k ∉ (appendIfTruthyStr params key v).map Prod.fst := by
  rcases keys_appendIfTruthyStr params key v with he | he <;> rw [he] <;>
    simp [h, hk]

/-- An unset (`None`) criteria field never appends its key. -/
theorem keys_appendIfTruthyInt_none (params : List (String × PVal))
    (key : String) :
    appendIfTruthyInt params key none = params := rfl

theorem keys_appendIfTruthyStr_none (params : List (String × PVal))
    (key : String) :
    appendIfTruthyStr params key none = params := rfl

/-- **C8.** A search built with only the query set (and the source defaults
`sort_by="date"`, `page=1`, `per_page=50`) issues `GET /items` whose params
are exactly `page`, `per_page`, `sort_by` and the query — no `category_id`,
`location_id`, `price_from` or `price_to`; and in any search, each criteria
field left `None` is omitted from the params rather than sent. -/
theorem search_items_roundtrip (q : String) (hq : q ≠ "") :
    searchItemsRequest none none (some q) none none "date" 1 50 =
      ("GET", "/items",
       [("page", .num 1), ("per_page", .num 50), ("sort_by", .str "date"),
        ("query", .str q)]) ∧
    ∀ cid lid sq pf pt sb pg pp,
      (cid = none →
        "category_id" ∉
          (searchItemsRequest cid lid sq pf pt sb pg pp).2.2.map Prod.fst) ∧
      (lid = none →
        "location_id" ∉
          (searchItemsRequest cid lid sq pf pt sb pg pp).2.2.map Prod.fst) ∧
      (sq = none →
        "query" ∉
          (searchItemsRequest cid lid sq pf pt sb pg pp).2.2.map Prod.fst) ∧
      (pf = none →
        "price_from" ∉
          (searchItemsRequest cid lid sq pf pt sb pg pp).2.2.map Prod.fst) ∧
      (pt = none →
        "price_to" ∉
          (searchItemsRequest cid lid sq pf pt sb pg pp).2.2.map Prod.fst) := by
  constructor
  · simp [searchItemsRequest, appendIfTruthyInt, appendIfTruthyStr, hq]
  · intro cid lid sq pf pt sb pg pp
    refine ⟨fun hc => ?_, fun hl => ?_, fun hs => ?_, fun hf => ?_, fun ht => ?_⟩
    all_goals subst_vars
    all_goals dsimp only [searchItemsRequest]
    · rw [keys_appendIfTruthyInt_none]
      exact not_mem_keys_appendIfTruthyInt (not_mem_keys_appendIfTruthyInt
        (not_mem_keys_appendIfTruthyStr (not_mem_keys_appendIfTruthyInt
          (by simp) (by decide)) (by decide)) (by decide)) (by decide)
    · rw [keys_appendIfTruthyInt_none]
      exact not_mem_keys_appendIfTruthyInt (not_mem_keys_appendIfTruthyInt
        (not_mem_keys_appendIfTruthyStr (not_mem_keys_appendIfTruthyInt
          (by simp) (by decide)) (by decide)) (by decide)) (by decide)
    · rw [keys_appendIfTruthyStr_none]
      exact not_mem_keys_appendIfTruthyInt (not_mem_keys_appendIfTruthyInt
        (not_mem_keys_appendIfTruthyInt (not_mem_keys_appendIfTruthyInt
          (by simp) (by decide)) (by decide)) (by decide)) (by decide)
    · rw [keys_appendIfTruthyInt_none]
      exact not_mem_keys_appendIfTruthyInt (not_mem_keys_appendIfTruthyStr
        (not_mem_keys_appendIfTruthyInt (not_mem_keys_appendIfTruthyInt
          (by simp) (by decide)) (by decide)) (by decide)) (by decide)
    · rw [keys_appendIfTruthyInt_none]
      exact not_mem_keys_appendIfTruthyInt (not_mem_keys_appendIfTruthyStr
        (not_mem_keys_appendIfTruthyInt (not_mem_keys_appendIfTruthyInt
          (by simp) (by decide)) (by decide)) (by decide)) (by decide)

/-- Witness for `search_items_roundtrip` at the query `"iPhone"`. -/
theorem search_items_roundtrip_witness :
    searchItemsRequest none none (some "iPhone") none none "date" 1 50 =
      ("GET", "/items",
       [("page", .num 1), ("per_page", .num 50), ("sort_by", .str "date"),
        ("query", .str "iPhone")]) :=
  (search_items_roundtrip "iPhone" (by decide)).1

/-! ## The poll loop (`check_prices`, bot.py lines 218–251)

Prices are rationals (`float` in the source).  An item-detail fetch yields
either a falsy value (`None`/`{}` — the listing is unavailable), or a truthy
object whose `price` and `title` fields may be absent; the `.error` case of
the surrounding `Except` stands for an exception raised by the fetch itself,
caught by the per-item handler (bot.py lines 250–251). -/

/-- A fetched item-detail result as the bot inspects it. -/
inductive FetchResult where
  /-- A falsy result (`None` or `{}`): the listing is unavailable. -/
  | unavailable : FetchResult
  /-- A truthy (non-empty) object, with optional `price` and `title`. -/
  | available (price : Option ℚ) (title : Option String) : FetchResult
deriving DecidableEq

/-- Direction of a price change (`"выросла"` / `"снизилась"`,
spec: `"increased"` / `"decreased"`). -/
inductive Direction where
  | increased : Direction
  | decreased : Direction
deriving DecidableEq

/-- Outbound events of a poll cycle, per item. -/
inductive PollEvent where
  /-- bot.py lines 227–230: the listing vanished and was dropped. -/
  | itemRemoved (item_id : String) : PollEvent
  /-- bot.py lines 238–247: the price-change notification, carrying title,
  old price, new price, signed percentage change, and direction. -/
  | priceChanged (item_id : String) (title : Option String)
      (old_price new_price pct_change : ℚ) (direction : Direction) : PollEvent
  /-- bot.py line 251: `logger.error(...)` from the per-item handler. -/
  | errorLogged (item_id : String) : PollEvent
deriving DecidableEq

/-- Expression `((current_price - last_price) / last_price) * 100` (bot.py line 235);
the error case is Python's `ZeroDivisionError` when `last_price` is 0. -/
def pctChange (current last : ℚ) : Except Unit ℚ :=
  if last = 0 then .error () else .ok ((current - last) / last * 100)

/-- One iteration of the inner loop of `check_prices` for a tracked pair
`(item_id, last_price)`.  Returns the item's new registry entry (`none` when
the entry is deleted) and the events emitted.  A raised exception — a failed
fetch or the division by zero — is caught at bot.py lines 250–251, which logs
and leaves the entry untouched.  The stored price is updated only inside the
notification branch (bot.py line 248). -/
def checkItem (item_id : String) (last : ℚ)
    (fetch : Except Unit FetchResult) : Option ℚ × List PollEvent :=
  match fetch with
  | .error _ => (some last, [.errorLogged item_id])
  | .ok .unavailable => (none, [.itemRemoved item_id])
  | .ok (.available priceOpt title) =>
    let current := priceOpt.getD 0
    if current ≠ last then
      match pctChange current last with
      | .error _ => (some last, [.errorLogged item_id])
      | .ok pc =>
        if PRICE_CHANGE_THRESHOLD ≤ |pc| then
          (some current,
           [.priceChanged item_id title last current pc
              (if last < current then .increased else .decreased)])
        else (some last, [])
    else (some last, [])

/-- The inner loop of `check_prices` over one user's snapshot
(`items.copy().items()`), folding each item's effect back into the dict. -/
def checkPricesUser (fetch : String → Except Unit FetchResult) :
    List (String × ℚ) → List (String × ℚ) × List PollEvent
  | [] => ([], [])
  | (i, p) :: rest =>
    let r := checkItem i p (fetch i)
    let rr := checkPricesUser fetch rest
    match r.1 with
    | none => (rr.1, r.2 ++ rr.2)
    | some p' => ((i, p') :: rr.1, r.2 ++ rr.2)

/-- Method `check_prices` over the whole registry: each user's items are processed
in turn; events are tagged with the `chat_id` they are sent to. -/
def checkPrices (R : List (Nat × List (String × ℚ)))
    (fetch : String → Except Unit FetchResult) :
    List (Nat × List (String × ℚ)) × List (Nat × PollEvent) :=
  (R.map fun e => (e.1, (checkPricesUser fetch e.2).1),
   R.flatMap fun e => (checkPricesUser fetch e.2).2.map fun ev => (e.1, ev))

/-- **C3.** With stored price 100 and threshold 5: a fetched price of 106
notifies — percentage change 6, direction increased, old price 100, new
price 106 — and the stored price becomes 106; a fetched price of 103 emits
nothing and the stored price stays 100. -/
theorem poll_threshold_behaviour :
    checkPricesUser (fun _ => .ok (.available (some 106) none)) [("42", 100)] =
      ([("42", 106)], [.priceChanged "42" none 100 106 6 .increased]) ∧
    checkPricesUser (fun _ => .ok (.available (some 103) none)) [("42", 100)] =
      ([("42", 100)], []) := by
  constructor
  · simp [checkPricesUser, checkItem, pctChange, PRICE_CHANGE_THRESHOLD]
    norm_num
  · simp [checkPricesUser, checkItem, pctChange, PRICE_CHANGE_THRESHOLD]
    norm_num

/-- If the fetch of `i` reports the listing unavailable, no entry keyed `i`
survives a user's poll pass. -/
theorem not_mem_checkPricesUser (fetch : String → Except Unit FetchResult)
    (i : String) (hf : fetch i = .ok .unavailable) (its : List (String × ℚ)) :
    i ∉ (checkPricesUser fetch its).1.map Prod.fst := by
  induction its with
  | nil => simp [checkPricesUser]
  | cons hd tl ih =>
    obtain ⟨j, q⟩ := hd
    by_cases hj : j = i
    · subst hj
      simp [checkPricesUser, checkItem, hf, ih]
    · cases hc : (checkItem j q (fetch j)).1 with
      | none => simpa [checkPricesUser, hc] using ih
      | some p' =>
        have hij : ¬ i = j := fun h => hj h.symm
        simp [checkPricesUser, hc, ih, hij]

/-- If the fetch of a tracked `i` reports the listing unavailable, the user's
poll pass emits its removal event. -/
theorem itemRemoved_mem_checkPricesUser
    (fetch : String → Except Unit FetchResult) (i : String) (p : ℚ)
    (hf : fetch i = .ok .unavailable) (its : List (String × ℚ))
    (hmem : (i, p) ∈ its) :
    PollEvent.itemRemoved i ∈ (checkPricesUser fetch its).2 := by
  induction its with
  | nil => simp at hmem
  | cons hd tl ih =>
    obtain ⟨j, q⟩ := hd
    rcases List.mem_cons.mp hmem with heq | htl
    · obtain ⟨hji, hqp⟩ := Prod.mk.injEq .. ▸ heq
      subst hji
      cases hc : (checkItem i q (fetch i)).1 <;>
        simp [checkPricesUser, checkItem, hf]
    · have := ih htl
      cases hc : (checkItem j q (fetch j)).1 <;>
        simp [checkPricesUser, hc, this]

/-- **C7.** For every tracked `(user, item)` pair whose detail fetch in a poll
cycle reports the listing unavailable, `check_prices` emits the removal
notification to that user and the item is gone from every item list the
resulting registry holds for that user. -/
theorem poll_removes_unavailable (R : List (Nat × List (String × ℚ)))
    (fetch : String → Except Unit FetchResult) (u : Nat)
    (its : List (String × ℚ)) (i : String) (p : ℚ)
    (hu : (u, its) ∈ R) (hi : (i, p) ∈ its)
    (hf : fetch i = .ok .unavailable) :
    (u, PollEvent.itemRemoved i) ∈ (checkPrices R fetch).2 ∧
    ∀ its', (u, its') ∈ (checkPrices R fetch).1 → i ∉ its'.map Prod.fst := by
  constructor
  · have hev := itemRemoved_mem_checkPricesUser fetch i p hf its hi
    simp only [checkPrices, List.mem_flatMap]
    exact ⟨(u, its), hu, List.mem_map.mpr ⟨_, hev, rfl⟩⟩
  · intro its' h
    simp only [checkPrices, List.mem_map] at h
    obtain ⟨e, _, he⟩ := h
    have : its' = (checkPricesUser fetch e.2).1 := (Prod.mk.injEq .. ▸ he).2.symm
    rw [this]
    exact not_mem_checkPricesUser fetch i hf e.2

/-- Witness for `poll_removes_unavailable`: user 7 tracks item `"42"` at
price 100, every fetch reports unavailable. -/
theorem poll_removes_unavailable_witness :
    (7, PollEvent.itemRemoved "42") ∈
      (checkPrices [(7, [("42", (100 : ℚ))])] fun _ => .ok .unavailable).2 ∧
    ∀ its', (7, its') ∈
        (checkPrices [(7, [("42", (100 : ℚ))])] fun _ => .ok .unavailable).1 →
      "42" ∉ its'.map Prod.fst :=
  poll_removes_unavailable [(7, [("42", 100)])] (fun _ => .ok .unavailable)
    7 [("42", 100)] "42" 100 (by simp) (by simp) rfl

/-- **C9.** Whenever the stored `last_price` is 0 and the fetched price is a
non-zero value, the percentage-change computation divides by zero: there is
no guard, no skip policy and no infinite-change policy ahead of the division,
so its error branch is reached (the raised `ZeroDivisionError` is only caught
afterwards by the per-item logger, which leaves the stored 0 in place). -/
theorem poll_zero_last_price_divides_by_zero (i : String) (t : Option String)
    (c : ℚ) (hc : c ≠ 0) :
    pctChange c 0 = .error () ∧
    checkItem i 0 (.ok (.available (some c) t)) =
      (some 0, [.errorLogged i]) := by
  refine ⟨rfl, ?_⟩
  simp [checkItem, pctChange, hc]

/-- Witness for `poll_zero_last_price_divides_by_zero` at fetched price 106. -/
theorem poll_zero_last_price_witness :
    pctChange 106 0 = .error () ∧
    checkItem "42" 0 (.ok (.available (some 106) none)) =
      (some 0, [.errorLogged "42"]) :=
  poll_zero_last_price_divides_by_zero "42" none 106 (by norm_num)

/-! ## The chat handler (`handle_message`, bot.py lines 88–156)

`user_items` is a dict `user_id -> {item_id: last_price}`; both dict levels
are modelled as association lists in insertion order with unique keys, with
insert-or-replace assignment and key deletion as in Python.

Python's `str.isdigit()` is true on every string of decimal digits and on
some further numeric characters, while `re.match(r'^\d+$', text)` matches
exactly the non-empty strings of decimal digits; every string the regex
accepts is therefore also accepted by `isdigit()`.  Both are modelled as the
decimal-digit predicate, which preserves that containment — the property the
handler's branch order depends on. -/

/-- Predicate `text.isdigit()` (bot.py line 94) over decimal-digit strings. -/
def pyIsDigit (s : String) : Bool :=
  !s.data.isEmpty && s.data.all Char.isDigit

/-- Predicate `re.match(r'^\d+$', text)` (bot.py line 131). -/
def matchesDigitRe (s : String) : Bool :=
  !s.data.isEmpty && s.data.all Char.isDigit

/-- Conversion `int(text)` for a digit string (bot.py line 97). -/
def pyInt (s : String) : Nat :=
  s.data.foldl (fun n c => n * 10 + (c.toNat - 48)) 0

/-- Every string the add-branch regex accepts, `isdigit()` accepts too — so
the `isdigit` branch at bot.py line 94 fires first and returns. -/
theorem pyIsDigit_of_matchesDigitRe (s : String) (h : matchesDigitRe s) :
    pyIsDigit s := h

/-- Assignment `d[u] = its` on the outer user dict (insert-or-replace). -/
def setUser : List (Nat × List (String × ℚ)) → Nat → List (String × ℚ) →
    List (Nat × List (String × ℚ))
  | [], u, its => [(u, its)]
  | (v, old) :: rest, u, its =>
    if v = u then (u, its) :: rest else (v, old) :: setUser rest u its

/-- Lookup `user_items.get(u)` on the outer user dict. -/
def getUser : List (Nat × List (String × ℚ)) → Nat →
    Option (List (String × ℚ))
  | [], _ => none
  | (v, its) :: rest, u => if v = u then some its else getUser rest u

/-- Assignment `d[i] = p` on an item dict (insert-or-replace). -/
def setItem : List (String × ℚ) → String → ℚ → List (String × ℚ)
  | [], i, p => [(i, p)]
  | (j, q) :: rest, i, p =>
    if j = i then (i, p) :: rest else (j, q) :: setItem rest i p

/-- Deletion `del d[i]` on an item dict. -/
def delItem : List (String × ℚ) → String → List (String × ℚ)
  | [], _ => []
  | (j, q) :: rest, i => if j = i then rest else (j, q) :: delItem rest i

/-- The handler's visible outcome, besides the registry. -/
inductive Reply where
  /-- bot.py line 102: the item at the given index was removed. -/
  | removed (item_id : String) : Reply
  /-- bot.py line 104: `Неверный номер объявления`. -/
  | invalidIndex : Reply
  /-- bot.py lines 111–128: the pipe-delimited search branch replied
  (it never touches `user_items`). -/
  | searchReply : Reply
  /-- bot.py lines 136–139: limit of tracked items reached. -/
  | limitReached : Reply
  /-- bot.py lines 147–151: item added, echoing the stored price. -/
  | added (price : ℚ) : Reply
  /-- bot.py line 153: `Объявление не найдено`. -/
  | notFound : Reply
  /-- bot.py line 156: `Ошибка при добавлении объявления`. -/
  | addError : Reply
  /-- The handler returned without replying. -/
  | silent : Reply
deriving DecidableEq

/-- The remove-by-index branch (bot.py lines 94–108): for a digit-string
message, `index = int(text) - 1` selects from the snapshot of the user's
items; in range the item is deleted, out of range the index is rejected;
with no items the handler returns silently. -/
def removeByIndex (user_id : Nat) (text : String)
    (R : List (Nat × List (String × ℚ))) :
    List (Nat × List (String × ℚ)) × Reply :=
  match getUser R user_id with
  | none => (R, .silent)
  | some its =>
    if its.isEmpty then (R, .silent)
    else
      let index : Int := (pyInt text : Int) - 1
      if 0 ≤ index ∧ index < (its.length : Int) then
        match its.get? index.toNat with
        | some (i, _) => (setUser R user_id (delItem its i), .removed i)
        | none => (R, .invalidIndex)
      else (R, .invalidIndex)

/-- The add-by-id branch (bot.py lines 131–156): ensure the user has an item
dict, reject at capacity, fetch the item's details, and on a truthy result
store `float(item_details.get('price', 0))` under the submitted id.  A fetch
exception is caught at lines 154–156. -/
def addById (user_id : Nat) (text : String)
    (R : List (Nat × List (String × ℚ)))
    (fetchDetails : String → Except Unit FetchResult) :
    List (Nat × List (String × ℚ)) × Reply :=
  let R' := if (getUser R user_id).isNone then setUser R user_id [] else R
  let its := (getUser R' user_id).getD []
  if MAX_ITEMS_PER_USER ≤ its.length then (R', .limitReached)
  else
    match fetchDetails text with
    | .error _ => (R', .addError)
    | .ok .unavailable => (R', .notFound)
    | .ok (.available priceOpt _) =>
      let price := priceOpt.getD 0
      (setUser R' user_id (setItem its text price), .added price)

/-- Method `handle_message` (bot.py lines 88–156), with its branches in source
order: the `isdigit` removal branch returns first, then the pipe-delimited
search branch (which never touches the registry), then the digit-regex add
branch, and otherwise the handler falls through silently. -/
def handleMessage (user_id : Nat) (text : String)
    (R : List (Nat × List (String × ℚ)))
    (fetchDetails : String → Except Unit FetchResult) :
    List (Nat × List (String × ℚ)) × Reply :=
  if pyIsDigit text then removeByIndex user_id text R
  else if text.data.contains '|' then (R, .searchReply)
  else if matchesDigitRe text then addById user_id text R fetchDetails
  else (R, .silent)

/-- The per-user capacity invariant: every watch set holds at most
`MAX_ITEMS_PER_USER` items. -/
def sizeBound (R : List (Nat × List (String × ℚ))) : Prop :=
  ∀ e ∈ R, e.2.length ≤ MAX_ITEMS_PER_USER

theorem length_setItem (its : List (String × ℚ)) (i : String) (p : ℚ) :
    (setItem its i p).length ≤ its.length + 1 := by
  induction its with
  | nil => simp [setItem]
  | cons hd tl ih =>
    obtain ⟨j, q⟩ := hd
    by_cases hj : j = i <;> simp [setItem, hj] <;> omega

theorem length_delItem (its : List (String × ℚ)) (i : String) :
    (delItem its i).length ≤ its.length := by
  induction its with
  | nil => simp [delItem]
  | cons hd tl ih =>
    obtain ⟨j, q⟩ := hd
    by_cases hj : j = i <;> simp [delItem, hj] <;> omega

theorem sizeBound_setUser {R : List (Nat × List (String × ℚ))} {u : Nat}
    {its : List (String × ℚ)} (hR : sizeBound R)
    (hits : its.length ≤ MAX_ITEMS_PER_USER) : sizeBound (setUser R u its) := by
  induction R with
  | nil =>
    intro e he
    simp [setUser] at he
    simp [he, hits]
  | cons hd rest ih =>
    obtain ⟨v, old⟩ := hd
    by_cases hv : v = u
    · intro e he
      simp [setUser, hv] at he
      rcases he with he | he
      · simp [he, hits]
      · exact hR e (List.mem_cons_of_mem _ he)
    · intro e he
      simp only [setUser, if_neg hv] at he
      rcases List.mem_cons.mp he with he | he
      · exact he ▸ hR (v, old) (List.mem_cons_self _ _)
      · exact ih (fun x hx => hR x (List.mem_cons_of_mem _ hx)) e he

theorem getUser_mem {R : List (Nat × List (String × ℚ))} {u : Nat}
    {its : List (String × ℚ)} (h : getUser R u = some its) : (u, its) ∈ R := by
  induction R with
  | nil => simp [getUser] at h
  | cons hd rest ih =>
    obtain ⟨v, old⟩ := hd
    by_cases hv : v = u
    · simp [getUser, hv] at h
      simp [hv, h]
    · simp only [getUser, if_neg hv] at h
      exact List.mem_cons_of_mem _ (ih h)

theorem length_checkPricesUser (fetch : String → Except Unit FetchResult)
    (its : List (String × ℚ)) :
    (checkPricesUser fetch its).1.length ≤ its.length := by
  induction its with
  | nil => simp [checkPricesUser]
  | cons hd tl ih =>
    obtain ⟨i, p⟩ := hd
    cases hc : (checkItem i p (fetch i)).1 <;>
      simp [checkPricesUser, hc] <;> omega

theorem sizeBound_removeByIndex (u : Nat) (text : String)
    (R : List (Nat × List (String × ℚ))) (hR : sizeBound R) :
    sizeBound (removeByIndex u text R).1 := by
  unfold removeByIndex
  cases hg : getUser R u with
  | none => exact hR
  | some its =>
    by_cases he : its.isEmpty
    · simpa [he] using hR
    · simp only [he, Bool.false_eq_true, if_false]
      split_ifs with hidx
      · cases hget : its.get? ((pyInt text : Int) - 1).toNat with
        | none => exact hR
        | some pr =>
          obtain ⟨i, q⟩ := pr
          exact sizeBound_setUser hR
            (le_trans (length_delItem its i) (hR _ (getUser_mem hg)))
      · exact hR

theorem getUser_setUser_self (R : List (Nat × List (String × ℚ))) (u : Nat)
    (its : List (String × ℚ)) : getUser (setUser R u its) u = some its := by
  induction R with
  | nil => simp [setUser, getUser]
  | cons hd rest ih =>
    obtain ⟨v, old⟩ := hd
    by_cases hv : v = u
    · simp [setUser, getUser, hv]
    · simp [setUser, getUser, hv, ih]

theorem sizeBound_addById (u : Nat) (text : String)
    (R : List (Nat × List (String × ℚ)))
    (fetch : String → Except Unit FetchResult) (hR : sizeBound R) :
    sizeBound (addById u text R fetch).1 := by
  cases hg : getUser R u with
  | some its0 =>
    unfold addById
    simp only [hg, Option.isNone_some, Bool.false_eq_true, if_false,
      Option.getD_some]
    split_ifs with hcap
    · exact hR
    · cases hf : fetch text with
      | error e => exact hR
      | ok fr =>
        cases fr with
        | unavailable => exact hR
        | available priceOpt title =>
          exact sizeBound_setUser hR
            (le_trans (length_setItem its0 text (priceOpt.getD 0)) (by omega))
  | none =>
    have hR' : sizeBound (setUser R u []) :=
      sizeBound_setUser hR (Nat.zero_le _)
    unfold addById
    simp only [hg, Option.isNone_none, if_true, getUser_setUser_self,
      Option.getD_some]
    split_ifs with hcap
    · exact hR'
    · cases hf : fetch text with
      | error e => exact hR'
      | ok fr =>
        cases fr with
        | unavailable => exact hR'
        | available priceOpt title =>
          exact sizeBound_setUser hR'
            (le_trans (length_setItem [] text (priceOpt.getD 0))
              (by simp [MAX_ITEMS_PER_USER]))

theorem sizeBound_checkPrices (R : List (Nat × List (String × ℚ)))
    (fetch : String → Except Unit FetchResult) (hR : sizeBound R) :
    sizeBound (checkPrices R fetch).1 := by
  intro e he
  simp only [checkPrices, List.mem_map] at he
  obtain ⟨a, ha, hae⟩ := he
  subst hae
  exact le_trans (length_checkPricesUser fetch a.2) (hR a ha)

/-- **C4.** The capacity invariant `size ≤ MAX_ITEMS_PER_USER` is preserved
by every chat message and by every poll cycle — the message handler's only
growing branch is the guarded insert — and an add attempted for a user whose
watch set is already at capacity is rejected with the limit reply, leaving
the registry exactly as it was. -/
theorem watch_set_capacity_invariant :
    (∀ (u : Nat) (text : String) R fetch, sizeBound R →
      sizeBound (handleMessage u text R fetch).1) ∧
    (∀ R fetch, sizeBound R → sizeBound (checkPrices R fetch).1) ∧
    (∀ (u : Nat) (text : String) R fetch its, getUser R u = some its →
      MAX_ITEMS_PER_USER ≤ its.length →
      addById u text R fetch = (R, .limitReached)) := by
  refine ⟨fun u text R fetch hR => ?_, sizeBound_checkPrices,
    fun u text R fetch its hg hcap => ?_⟩
  · unfold handleMessage
    split_ifs
    · exact sizeBound_removeByIndex u text R hR
    · exact hR
    · exact sizeBound_addById u text R fetch hR
    · exact hR
  · simp [addById, hg, hcap]

/-- A full ten-item watch set. -/
def tenItems : List (String × ℚ) :=
  [("1", 1), ("2", 2), ("3", 3), ("4", 4), ("5", 5),
   ("6", 6), ("7", 7), ("8", 8), ("9", 9), ("10", 10)]

/-- Witness for `watch_set_capacity_invariant`: user 7 already tracks ten
items; a message stays within the bound and the add path rejects without
changing the registry. -/
theorem watch_set_capacity_witness :
    sizeBound (handleMessage 7 "11" [(7, tenItems)]
      (fun _ => .ok (.available (some 1) none))).1 ∧
    addById 7 "11" [(7, tenItems)]
      (fun _ => .ok (.available (some 1) none)) =
      ([(7, tenItems)], .limitReached) :=
  ⟨watch_set_capacity_invariant.1 7 "11" [(7, tenItems)] _
      (by unfold sizeBound; decide),
   watch_set_capacity_invariant.2.2 7 "11" [(7, tenItems)] _ tenItems
      (by decide) (by decide)⟩

/-- **C5 (counter-scenario).** A bare numeric string is consumed by the
`isdigit` remove-by-index branch, which returns before the add branch is ever
reached: a user with no tracked items who sends `"12345"` gets nothing added
(and no reply); a user with one tracked item gets `Неверный номер` and still
nothing added.  The add branch itself — had it been reachable — would have
stored the item at its fetched price, as the bot's own help text promises. -/
theorem numeric_message_never_reaches_add_branch :
    handleMessage 7 "12345" []
      (fun _ => .ok (.available (some 100) none)) = ([], .silent) ∧
    handleMessage 7 "12345" [(7, [("1", 50)])]
      (fun _ => .ok (.available (some 100) none)) =
      ([(7, [("1", 50)])], .invalidIndex) ∧
    addById 7 "12345" []
      (fun _ => .ok (.available (some 100) none)) =
      ([(7, [("12345", 100)])], .added 100) := by
  refine ⟨by decide, by decide, by decide⟩

/-- **C10.** A truthy item-detail object with no `price` field defaults to
price 0: the poll loop's delta computation treats it exactly as a fetched
price of 0, and the add path stores 0 as the new item's `last_price`. -/
theorem missing_price_defaults_to_zero :
    (∀ (i : String) (last : ℚ) (t : Option String),
      checkItem i last (.ok (.available none t)) =
        checkItem i last (.ok (.available (some 0) t))) ∧
    addById 7 "123" [] (fun _ => .ok (.available none none)) =
      ([(7, [("123", 0)])], .added 0) :=
  ⟨fun i last t => rfl, by decide⟩

end AvitoMonitor
